import Mathlib

/-!
Verification of the webook code-cache component
(src/internal/repository/cache/code.go).

The component issues short-lived one-time verification codes per
(business, phone) pair, with a 60-second send cooldown, a 5-minute
time-to-live, and at most 3 verification attempts before lockout.
It has two backends: an in-process store guarded by a lock
(LocalCodeCache, over patrickmn/go-cache) and a Redis-backed store
driven by two embedded lua scripts (RedisCodeCache).

Embedding conventions:
- Time is modelled in Unix seconds as `Int`, matching time.Now().Unix()
  in the Go source; each operation takes the current time explicitly.
- The go-cache store is modelled as a function from keys to optional
  entries carrying an absolute expiry instant; go-cache treats an item
  as expired when now is strictly past its expiration, and Get hides
  expired items, which `cacheGet` reproduces.
- Since every call runs under the single mutex (local backend) or as
  one atomic lua script (Redis backend), each operation is one atomic
  state transformation; concurrency reduces to sequential interleaving
  of these transformations, which the step functions capture.
- The Go type assertion `item.(*localCodeCacheValue)` always succeeds
  because the store is only ever written through Set/Verify; the typed
  model makes the failing branch unrepresentable.
- The lua scripts are embedded via go:embed and their text is not part
  of the repository snapshot; the verify script is therefore modelled
  from the spec (section 4.3), as marked on its definition.
-/

/-- Error taxonomy of code.go: ErrCodeSendTooMany, ErrCodeVerifyTooManyTimes,
ErrUnknownForCode, and the generic system error returned by RedisCodeCache.Set. -/
inductive Err where
  | sendTooMany
  | verifyTooManyTimes
  | unknownForCode
  | system
deriving DecidableEq, Repr

/-- Key scheme of the Redis backend: fmt.Sprintf("phone_code:%s:%s", biz, phone). -/
def RedisCodeCache.key (biz phone : String) : String :=
  "phone_code:" ++ biz ++ ":" ++ phone

/-- Key scheme of the local backend: fmt.Sprintf("phone_code:%s:%s", biz, phone). -/
def LocalCodeCache.key (biz phone : String) : String :=
  "phone_code:" ++ biz ++ ":" ++ phone

/-- The record stored per key by the local backend (struct localCodeCacheValue):
the active code, the remaining verification attempts, and the creation time. -/
structure localCodeCacheValue where
  code : String
  times : Int
  createTime : Int
deriving DecidableEq, Repr

/-- A go-cache entry: the stored value together with its absolute expiry instant. -/
structure LocalEntry where
  value : localCodeCacheValue
  expiresAt : Int
deriving DecidableEq, Repr

/-- The in-process store of the local backend: key to optional entry. -/
def LocalStore : Type := String → Option LocalEntry

/-- The empty local store. -/
def emptyLocal : LocalStore := fun _ => none

/-- Lookup in go-cache: an item whose expiration has strictly passed is
reported as absent (cache.Get returns found = false for expired items). -/
def cacheGet (s : LocalStore) (k : String) (now : Int) : Option LocalEntry :=
  match s k with
  | some e => if e.expiresAt < now then none else some e
  | none => none

/-- Store in go-cache with a ttl in seconds: cache.Set(k, v, ttl). -/
def cacheSet (s : LocalStore) (k : String) (v : localCodeCacheValue) (ttl : Int)
    (now : Int) : LocalStore :=
  fun k2 => if k2 = k then some ⟨v, now + ttl⟩ else s k2

/-- LocalCodeCache.getValue: a fresh record with 3 attempts and the
current time as creation time. -/
def LocalCodeCache.getValue (code : String) (now : Int) : localCodeCacheValue :=
  ⟨code, 3, now⟩

/-- Outcome of a Set call on the local backend: the returned error (none
for success) and the store after the call. -/
structure SetResult where
  err : Option Err
  store : LocalStore

/-- LocalCodeCache.Set: under the mutex, look the key up; if a value is
found and less than 60 seconds have passed since its creation, return
ErrCodeSendTooMany without mutation; otherwise store a fresh record
(3 attempts, creation time now) with a 5-minute ttl. -/
def LocalCodeCache.Set (s : LocalStore) (biz phone code : String) (now : Int) :
    SetResult :=
  let key := LocalCodeCache.key biz phone
  match cacheGet s key now with
  | some e =>
      if now - e.value.createTime < 60 then
        ⟨some Err.sendTooMany, s⟩
      else
        ⟨none, cacheSet s key (LocalCodeCache.getValue code now) 300 now⟩
  | none => ⟨none, cacheSet s key (LocalCodeCache.getValue code now) 300 now⟩

/-- Outcome of a Verify call: the boolean verdict, the returned error
(none for success), and the store after the call. -/
structure VerifyResult where
  ok : Bool
  err : Option Err
  store : LocalStore

/-- LocalCodeCache.Verify: under the mutex, look the key up; absent gives
ErrUnknownForCode; times at most 0 gives ErrCodeVerifyTooManyTimes; a
mismatching code decrements times, re-stores with a 5-minute ttl and
returns (false, ErrUnknownForCode); a matching code sets times to -1,
re-stores with a 1-second ttl and returns (true, nil). -/
def LocalCodeCache.Verify (s : LocalStore) (biz phone inputCode : String)
    (now : Int) : VerifyResult :=
  let key := LocalCodeCache.key biz phone
  match cacheGet s key now with
  | none => ⟨false, some Err.unknownForCode, s⟩
  | some e =>
      if e.value.times ≤ 0 then
        ⟨false, some Err.verifyTooManyTimes, s⟩
      else if e.value.code ≠ inputCode then
        ⟨false, some Err.unknownForCode,
          cacheSet s key ⟨e.value.code, e.value.times - 1, e.value.createTime⟩ 300 now⟩
      else
        ⟨true, none,
          cacheSet s key ⟨e.value.code, -1, e.value.createTime⟩ 1 now⟩

/-- The record stored per key by the Redis backend: the code value and
the attempts counter, with the absolute expiry of the key. -/
structure RedisEntry where
  code : String
  cnt : Int
  expiresAt : Int
deriving DecidableEq, Repr

/-- The Redis store: key to optional entry. -/
def RedisStore : Type := String → Option RedisEntry

/-- The empty Redis store. -/
def emptyRedis : RedisStore := fun _ => none

/-- Lookup in Redis: a key whose expiry has strictly passed is absent. -/
def redisGet (s : RedisStore) (k : String) (now : Int) : Option RedisEntry :=
  match s k with
  | some e => if e.expiresAt < now then none else some e
  | none => none

/-- Pointwise update of the Redis store. -/
def redisPut (s : RedisStore) (k : String) (e : RedisEntry) : RedisStore :=
  fun k2 => if k2 = k then some e else s k2

/-- Modelled from the spec: the embedded lua/verify_code.lua script, whose
text is not under src (section 4.3, Verify procedure). Atomically: with
attempts at most 0, return -1 without mutation; with the key absent,
return a status outside 0, -1, -2 that the Go caller maps to
ErrUnknownForCode; with the candidate equal to the stored code, set
attempts to the disabled sentinel -1 and return 0; otherwise decrement
attempts and return -2. -/
def luaVerifyCode (s : RedisStore) (k : String) (inputCode : String) (now : Int) :
    Int × RedisStore :=
  match redisGet s k now with
  | none => (-3, s)
  | some e =>
      if e.cnt ≤ 0 then (-1, s)
      else if inputCode = e.code then
        (0, redisPut s k ⟨e.code, -1, e.expiresAt⟩)
      else
        (-2, redisPut s k ⟨e.code, e.cnt - 1, e.expiresAt⟩)

/-- Outcome of a Verify call on the Redis backend. -/
structure RedisVerifyResult where
  ok : Bool
  err : Option Err
  store : RedisStore

/-- RedisCodeCache.Verify: run the verify script on the computed key and
map its status: 0 to (true, nil), -1 to ErrCodeVerifyTooManyTimes, -2 to
(false, nil), anything else to ErrUnknownForCode. -/
def RedisCodeCache.Verify (s : RedisStore) (biz phone inputCode : String)
    (now : Int) : RedisVerifyResult :=
  let r := luaVerifyCode s (RedisCodeCache.key biz phone) inputCode now
  if r.1 = 0 then ⟨true, none, r.2⟩
  else if r.1 = -1 then ⟨false, some Err.verifyTooManyTimes, r.2⟩
  else if r.1 = -2 then ⟨false, none, r.2⟩
  else ⟨false, some Err.unknownForCode, r.2⟩

/-- One caller-visible operation on the local backend, with the instant
at which it runs. -/
inductive Op where
  | set (biz phone code : String) (now : Int)
  | verify (biz phone inputCode : String) (now : Int)

/-- Whether an operation is a Set call. -/
def Op.isSet : Op → Bool
  | .set _ _ _ _ => true
  | .verify _ _ _ _ => false

/-- The store after one operation on the local backend. -/
def stepStore (s : LocalStore) : Op → LocalStore
  | .set biz phone code now => (LocalCodeCache.Set s biz phone code now).store
  | .verify biz phone inputCode now =>
      (LocalCodeCache.Verify s biz phone inputCode now).store

/-- The store after a sequence of Verify calls, each given as
(biz, phone, inputCode, now). -/
def verifyRun (s : LocalStore) : List (String × String × String × Int) → LocalStore
  | [] => s
  | (biz, phone, inputCode, now) :: rest =>
      verifyRun (LocalCodeCache.Verify s biz phone inputCode now).store rest

/-- A key whose raw entry, when present, has no attempts left: the state
of a consumed or exhausted record. -/
def consumed (s : LocalStore) (k : String) : Prop :=
  ∀ e, s k = some e → e.value.times ≤ 0

/-- C8: the key-scheme functions of the two backends are extensionally
equal, and both compute "phone_code:" ++ biz ++ ":" ++ phone; being plain
functions of their two string arguments, they are pure and deterministic. -/
theorem key_schemes_agree (biz phone : String) :
    RedisCodeCache.key biz phone = LocalCodeCache.key biz phone ∧
    LocalCodeCache.key biz phone = "phone_code:" ++ biz ++ ":" ++ phone := by
  constructor <;> rfl

/-- C10: the key scheme is not injective: the distinct pairs
("login:a", "b") and ("login", "a:b") collide on both backends, so any
store, local or Redis, holds one shared record for both pairs. -/
theorem key_scheme_not_injective :
    LocalCodeCache.key "login:a" "b" = LocalCodeCache.key "login" "a:b" ∧
    RedisCodeCache.key "login:a" "b" = RedisCodeCache.key "login" "a:b" ∧
    (("login:a", "b") : String × String) ≠ ("login", "a:b") ∧
    (∀ s : LocalStore,
      s (LocalCodeCache.key "login:a" "b") = s (LocalCodeCache.key "login" "a:b")) ∧
    (∀ s : RedisStore,
      s (RedisCodeCache.key "login:a" "b") = s (RedisCodeCache.key "login" "a:b")) := by
  refine ⟨rfl, rfl, by decide, ?_, ?_⟩ <;> intro s <;> rfl

/-- C7: on a key with no stored record (absent or expired), Verify returns
verdict false with ErrUnknownForCode and leaves the store unchanged, for
any input code, on both the local backend and the Redis backend. -/
theorem verify_no_record_unknown (s : LocalStore) (rs : RedisStore)
    (biz phone inputCode : String) (now : Int) :
    (cacheGet s (LocalCodeCache.key biz phone) now = none →
      LocalCodeCache.Verify s biz phone inputCode now =
        ⟨false, some Err.unknownForCode, s⟩) ∧
    (redisGet rs (RedisCodeCache.key biz phone) now = none →
      RedisCodeCache.Verify rs biz phone inputCode now =
        ⟨false, some Err.unknownForCode, rs⟩) := by
  constructor
  · intro h
    simp [LocalCodeCache.Verify, h]
  · intro h
    simp [RedisCodeCache.Verify, luaVerifyCode, h]

/-- Witness for C7 at a concrete input: the empty store has no record for
("login", "13800000000"), and Verify returns false with ErrUnknownForCode
on both backends. -/
theorem verify_no_record_unknown_witness :
    LocalCodeCache.Verify emptyLocal "login" "13800000000" "123456" 5 =
      ⟨false, some Err.unknownForCode, emptyLocal⟩ ∧
    RedisCodeCache.Verify emptyRedis "login" "13800000000" "123456" 5 =
      ⟨false, some Err.unknownForCode, emptyRedis⟩ :=
  ⟨(verify_no_record_unknown emptyLocal emptyRedis "login" "13800000000" "123456" 5).1 rfl,
   (verify_no_record_unknown emptyLocal emptyRedis "login" "13800000000" "123456" 5).2 rfl⟩

/-- C6: on a key whose record has no attempts left, Verify returns verdict
false with ErrCodeVerifyTooManyTimes and leaves the whole store, hence
every field of the record and its expiry, untouched, on both backends. -/
theorem verify_exhausted_untouched (s : LocalStore) (rs : RedisStore)
    (biz phone inputCode : String) (now : Int) :
    (∀ e, cacheGet s (LocalCodeCache.key biz phone) now = some e →
      e.value.times ≤ 0 →
      LocalCodeCache.Verify s biz phone inputCode now =
        ⟨false, some Err.verifyTooManyTimes, s⟩) ∧
    (∀ e, redisGet rs (RedisCodeCache.key biz phone) now = some e →
      e.cnt ≤ 0 →
      RedisCodeCache.Verify rs biz phone inputCode now =
        ⟨false, some Err.verifyTooManyTimes, rs⟩) := by
  constructor
  · intro e h h2
    simp [LocalCodeCache.Verify, h, h2]
  · intro e h h2
    simp [RedisCodeCache.Verify, luaVerifyCode, h, h2]

/-- Witness for C6 at a concrete input: a record with 0 attempts left on
each backend gives ErrCodeVerifyTooManyTimes and an unchanged store. -/
theorem verify_exhausted_untouched_witness :
    LocalCodeCache.Verify
        (cacheSet emptyLocal (LocalCodeCache.key "login" "13800000000")
          ⟨"123456", 0, 0⟩ 300 0) "login" "13800000000" "123456" 10 =
      ⟨false, some Err.verifyTooManyTimes,
        cacheSet emptyLocal (LocalCodeCache.key "login" "13800000000")
          ⟨"123456", 0, 0⟩ 300 0⟩ ∧
    RedisCodeCache.Verify
        (redisPut emptyRedis (RedisCodeCache.key "login" "13800000000")
          ⟨"123456", 0, 300⟩) "login" "13800000000" "123456" 10 =
      ⟨false, some Err.verifyTooManyTimes,
        redisPut emptyRedis (RedisCodeCache.key "login" "13800000000")
          ⟨"123456", 0, 300⟩⟩ :=
  ⟨(verify_exhausted_untouched
      (cacheSet emptyLocal (LocalCodeCache.key "login" "13800000000")
        ⟨"123456", 0, 0⟩ 300 0)
      (redisPut emptyRedis (RedisCodeCache.key "login" "13800000000")
        ⟨"123456", 0, 300⟩)
      "login" "13800000000" "123456" 10).1 ⟨⟨"123456", 0, 0⟩, 300⟩ (by decide) (by decide),
   (verify_exhausted_untouched
      (cacheSet emptyLocal (LocalCodeCache.key "login" "13800000000")
        ⟨"123456", 0, 0⟩ 300 0)
      (redisPut emptyRedis (RedisCodeCache.key "login" "13800000000")
        ⟨"123456", 0, 300⟩)
      "login" "13800000000" "123456" 10).2 ⟨"123456", 0, 300⟩ (by decide) (by decide)⟩

/-- The cache key of the running concrete scenario. -/
def demoKey : String := LocalCodeCache.key "login" "13800000000"

/-- The local store after Set("login", "13800000000", "123456") at time 0. -/
def demoSetStore : LocalStore :=
  (LocalCodeCache.Set emptyLocal "login" "13800000000" "123456" 0).store

/-- First Verify with the wrong code "000000", at time 1. -/
def demoR1 : VerifyResult :=
  LocalCodeCache.Verify demoSetStore "login" "13800000000" "000000" 1

/-- Second Verify with the wrong code, at time 2. -/
def demoR2 : VerifyResult :=
  LocalCodeCache.Verify demoR1.store "login" "13800000000" "000000" 2

/-- Third Verify with the wrong code, at time 3. -/
def demoR3 : VerifyResult :=
  LocalCodeCache.Verify demoR2.store "login" "13800000000" "000000" 3

/-- Fourth Verify, at time 4, after the attempts have been exhausted. -/
def demoR4 : VerifyResult :=
  LocalCodeCache.Verify demoR3.store "login" "13800000000" "000000" 4

/-- The Redis store holding the same record as demoSetStore. -/
def demoRedisStore : RedisStore :=
  redisPut emptyRedis (RedisCodeCache.key "login" "13800000000") ⟨"123456", 3, 300⟩

/-- First Redis Verify with the wrong code "000000", at time 1. -/
def demoRedisR1 : RedisVerifyResult :=
  RedisCodeCache.Verify demoRedisStore "login" "13800000000" "000000" 1

/-- C1: at a concrete wrong-code verification both backends decrement the
attempts from 3 to 2 and persist, but the local backend returns
ErrUnknownForCode where the spec, and the Redis backend, give a plain
(false, nil): the local mismatch branch of code.go returns the wrong
error value. -/
theorem wrong_code_error_divergence :
    demoR1.ok = false ∧ demoR1.err = some Err.unknownForCode ∧
    demoR1.err ≠ none ∧
    demoR1.store demoKey = some ⟨⟨"123456", 2, 0⟩, 301⟩ ∧
    demoRedisR1.ok = false ∧ demoRedisR1.err = none ∧
    demoRedisR1.store demoKey = some ⟨"123456", 2, 300⟩ := by decide

/-- C2: in the concrete four-call scenario the attempts decrement 3, 2, 1,
0 on the three mismatches and the fourth call returns
ErrCodeVerifyTooManyTimes, but the first calls return (false,
ErrUnknownForCode), not the (false, nil) the spec states. -/
theorem three_wrong_codes_lockout :
    demoR1.ok = false ∧ demoR1.err = some Err.unknownForCode ∧
    demoR2.ok = false ∧ demoR2.err = some Err.unknownForCode ∧
    demoR3.ok = false ∧ demoR3.err = some Err.unknownForCode ∧
    demoR4.ok = false ∧ demoR4.err = some Err.verifyTooManyTimes ∧
    demoR1.store demoKey = some ⟨⟨"123456", 2, 0⟩, 301⟩ ∧
    demoR2.store demoKey = some ⟨⟨"123456", 1, 0⟩, 302⟩ ∧
    demoR3.store demoKey = some ⟨⟨"123456", 0, 0⟩, 303⟩ ∧
    demoR4.store demoKey = some ⟨⟨"123456", 0, 0⟩, 303⟩ := by decide

/-- Raw presence behind a successful cache lookup: a found entry is the
entry stored under the key. -/
theorem cacheGet_eq_some {s : LocalStore} {k : String} {now : Int} {e : LocalEntry}
    (h : cacheGet s k now = some e) : s k = some e := by
  unfold cacheGet at h
  cases hs : s k with
  | none => rw [hs] at h; exact absurd h (by simp)
  | some e3 =>
      rw [hs] at h
      simp only [] at h
      by_cases hc : e3.expiresAt < now
      · rw [if_pos hc] at h; exact absurd h (by simp)
      · rw [if_neg hc] at h; exact h

/-- C3: Set on a key whose record was issued less than 60 seconds ago
returns ErrCodeSendTooMany with the whole store unchanged; when the key
has no unexpired record, or at least 60 seconds have elapsed since its
issuance, Set succeeds and replaces the record by the new code with 3
attempts, issuance time now and expiry now + 300, touching no other key. -/
theorem set_cooldown_semantics (s : LocalStore) (biz phone code : String)
    (now : Int) :
    (∀ e, cacheGet s (LocalCodeCache.key biz phone) now = some e →
      now - e.value.createTime < 60 →
      LocalCodeCache.Set s biz phone code now = ⟨some Err.sendTooMany, s⟩) ∧
    ((cacheGet s (LocalCodeCache.key biz phone) now = none ∨
      (∃ e, cacheGet s (LocalCodeCache.key biz phone) now = some e ∧
        60 ≤ now - e.value.createTime)) →
      (LocalCodeCache.Set s biz phone code now).err = none ∧
      (LocalCodeCache.Set s biz phone code now).store (LocalCodeCache.key biz phone) =
        some ⟨⟨code, 3, now⟩, now + 300⟩ ∧
      ∀ k2, k2 ≠ LocalCodeCache.key biz phone →
        (LocalCodeCache.Set s biz phone code now).store k2 = s k2) := by
  constructor
  · intro e h h2
    simp [LocalCodeCache.Set, h, h2]
  · rintro (hc | ⟨e, hc, h60⟩)
    · refine ⟨?_, ?_, ?_⟩ <;>
        simp [LocalCodeCache.Set, hc, cacheSet, LocalCodeCache.getValue]
      intro k2 hk2
      simp [hk2]
    · have h3 : ¬ (now - e.value.createTime < 60) := by omega
      refine ⟨?_, ?_, ?_⟩ <;>
        simp [LocalCodeCache.Set, hc, h3, cacheSet, LocalCodeCache.getValue]
      intro k2 hk2
      simp [hk2]

/-- Witness for C3 at concrete inputs: a second Set 30 seconds after
issuance is rejected without mutation, and a Set 60 seconds after
issuance replaces the record with the new code. -/
theorem set_cooldown_semantics_witness :
    LocalCodeCache.Set demoSetStore "login" "13800000000" "654321" 30 =
      ⟨some Err.sendTooMany, demoSetStore⟩ ∧
    ((LocalCodeCache.Set demoSetStore "login" "13800000000" "654321" 60).err = none ∧
      (LocalCodeCache.Set demoSetStore "login" "13800000000" "654321" 60).store
          (LocalCodeCache.key "login" "13800000000") =
        some ⟨⟨"654321", 3, 60⟩, 360⟩ ∧
      ∀ k2, k2 ≠ LocalCodeCache.key "login" "13800000000" →
        (LocalCodeCache.Set demoSetStore "login" "13800000000" "654321" 60).store k2 =
          demoSetStore k2) :=
  ⟨(set_cooldown_semantics demoSetStore "login" "13800000000" "654321" 30).1
      ⟨⟨"123456", 3, 0⟩, 300⟩ (by decide) (by decide),
   (set_cooldown_semantics demoSetStore "login" "13800000000" "654321" 60).2
      (Or.inr ⟨⟨⟨"123456", 3, 0⟩, 300⟩, by decide, by decide⟩)⟩

/-- Store effect of a Set call at any key: either that key is untouched,
or it is the computed key and now holds the fresh record. -/
theorem set_store_cases (s : LocalStore) (biz phone code : String) (now : Int)
    (k : String) :
    (LocalCodeCache.Set s biz phone code now).store k = s k ∨
    (k = LocalCodeCache.key biz phone ∧
      (LocalCodeCache.Set s biz phone code now).store k =
        some ⟨⟨code, 3, now⟩, now + 300⟩) := by
  simp only [LocalCodeCache.Set]
  split
  next e3 hg =>
    split
    next hcd => left; rfl
    next hcd =>
      by_cases hk : k = LocalCodeCache.key biz phone
      · right
        exact ⟨hk, by simp [cacheSet, LocalCodeCache.getValue, hk]⟩
      · left
        simp [cacheSet, LocalCodeCache.getValue, hk]
  next hg =>
    by_cases hk : k = LocalCodeCache.key biz phone
    · right
      exact ⟨hk, by simp [cacheSet, LocalCodeCache.getValue, hk]⟩
    · left
      simp [cacheSet, LocalCodeCache.getValue, hk]

/-- Store effect of a Verify call at any key: either that key is
untouched, or it is the computed key, whose record had attempts left and
now holds either the decremented record or the consumed sentinel record. -/
theorem verify_store_cases (s : LocalStore) (biz phone inputCode : String)
    (now : Int) (k : String) :
    (LocalCodeCache.Verify s biz phone inputCode now).store k = s k ∨
    (k = LocalCodeCache.key biz phone ∧ ∃ e3,
      cacheGet s (LocalCodeCache.key biz phone) now = some e3 ∧
      0 < e3.value.times ∧
      ((LocalCodeCache.Verify s biz phone inputCode now).store k =
          some ⟨⟨e3.value.code, e3.value.times - 1, e3.value.createTime⟩, now + 300⟩ ∨
       (LocalCodeCache.Verify s biz phone inputCode now).store k =
          some ⟨⟨e3.value.code, -1, e3.value.createTime⟩, now + 1⟩)) := by
  simp only [LocalCodeCache.Verify]
  split
  next hg => left; rfl
  next e3 hg =>
    split
    next ht => left; rfl
    next ht =>
      split
      next hcode =>
        by_cases hk : k = LocalCodeCache.key biz phone
        · right
          exact ⟨hk, e3, hg, by omega, Or.inl (by simp [cacheSet, hk])⟩
        · left
          simp [cacheSet, hk]
      next hcode =>
        by_cases hk : k = LocalCodeCache.key biz phone
        · right
          exact ⟨hk, e3, hg, by omega, Or.inr (by simp [cacheSet, hk])⟩
        · left
          simp [cacheSet, hk]

/-- C5: across one Set or Verify operation of the local backend, the
attempts counter of the record under any key never increases from one
state to the next, except that a Set call that creates or replaces the
record resets it to exactly 3. -/
theorem attempts_never_increase (s : LocalStore) (op : Op) (k : String)
    (e e2 : LocalEntry) (h : s k = some e) (h2 : stepStore s op k = some e2) :
    e2.value.times ≤ e.value.times ∨ (op.isSet = true ∧ e2.value.times = 3) := by
  cases op with
  | set biz phone code now =>
      simp only [stepStore] at h2
      rcases set_store_cases s biz phone code now k with hc | ⟨hk, hc⟩
      · rw [hc, h] at h2
        injection h2 with h4
        rw [← h4]
        exact Or.inl (le_refl _)
      · rw [hc] at h2
        injection h2 with h4
        right
        rw [← h4]
        exact ⟨rfl, rfl⟩
  | verify biz phone inputCode now =>
      simp only [stepStore] at h2
      rcases verify_store_cases s biz phone inputCode now k with hc | ⟨hk, e3, hg, ht, hor⟩
      · rw [hc, h] at h2
        injection h2 with h4
        rw [← h4]
        exact Or.inl (le_refl _)
      · left
        have hraw : s (LocalCodeCache.key biz phone) = some e3 := cacheGet_eq_some hg
        rw [← hk, h] at hraw
        injection hraw with h5
        rcases hor with h6 | h6
        · rw [h6] at h2
          injection h2 with h7
          rw [← h7, h5]
          show e3.value.times - 1 ≤ e3.value.times
          omega
        · rw [h6] at h2
          injection h2 with h7
          rw [← h7, h5]
          show (-1 : Int) ≤ e3.value.times
          omega

/-- Witness for C5 at a concrete input: a wrong-code Verify step takes the
attempts of the stored record from 3 to 2, which does not increase. -/
theorem attempts_never_increase_witness :
    demoSetStore demoKey = some ⟨⟨"123456", 3, 0⟩, 300⟩ ∧
    stepStore demoSetStore (Op.verify "login" "13800000000" "000000" 1) demoKey =
      some ⟨⟨"123456", 2, 0⟩, 301⟩ ∧
    ((⟨⟨"123456", 2, 0⟩, 301⟩ : LocalEntry).value.times ≤
        (⟨⟨"123456", 3, 0⟩, 300⟩ : LocalEntry).value.times ∨
      ((Op.verify "login" "13800000000" "000000" 1).isSet = true ∧
        (⟨⟨"123456", 2, 0⟩, 301⟩ : LocalEntry).value.times = 3)) :=
  ⟨by decide, by decide,
   attempts_never_increase demoSetStore (Op.verify "login" "13800000000" "000000" 1)
     demoKey ⟨⟨"123456", 3, 0⟩, 300⟩ ⟨⟨"123456", 2, 0⟩, 301⟩ (by decide) (by decide)⟩

/-- A Verify call that returns verdict true found an unexpired record with
attempts left whose code matched, and its store is the input store with
that record replaced by the sentinel record of 1-second lifetime. -/
theorem verify_true_store (s : LocalStore) (biz phone c : String) (now : Int)
    (h : (LocalCodeCache.Verify s biz phone c now).ok = true) :
    ∃ e3, cacheGet s (LocalCodeCache.key biz phone) now = some e3 ∧
      0 < e3.value.times ∧
      (LocalCodeCache.Verify s biz phone c now).store =
        cacheSet s (LocalCodeCache.key biz phone)
          ⟨e3.value.code, -1, e3.value.createTime⟩ 1 now := by
  revert h
  simp only [LocalCodeCache.Verify]
  split
  next hg => intro h; simp at h
  next e3 hg =>
    split
    next ht => intro h; simp at h
    next ht =>
      split
      next hcode => intro h; simp at h
      next hcode => intro h; exact ⟨e3, hg, by omega, rfl⟩

/-- After a Verify that returns verdict true, the record under the
computed key is consumed: any entry still stored there has no attempts
left. -/
theorem verify_true_consumed (s : LocalStore) (biz phone c : String) (now : Int)
    (h : (LocalCodeCache.Verify s biz phone c now).ok = true) :
    consumed (LocalCodeCache.Verify s biz phone c now).store
      (LocalCodeCache.key biz phone) := by
  obtain ⟨e3, hg, ht, hst⟩ := verify_true_store s biz phone c now h
  intro e2 h2
  rw [hst] at h2
  simp [cacheSet] at h2
  rw [← h2]
  show (-1 : Int) ≤ 0
  decide

/-- A consumed key stays consumed across any further Verify call. -/
theorem verify_preserves_consumed (s : LocalStore) (k biz phone inputCode : String)
    (now : Int) (h : consumed s k) :
    consumed (LocalCodeCache.Verify s biz phone inputCode now).store k := by
  rcases verify_store_cases s biz phone inputCode now k with hc | ⟨hk, e3, hg, ht, hor⟩
  · intro e2 h2
    rw [hc] at h2
    exact h e2 h2
  · exfalso
    have hraw := cacheGet_eq_some hg
    rw [← hk] at hraw
    have := h e3 hraw
    omega

/-- A consumed key stays consumed across any sequence of Verify calls. -/
theorem verifyRun_preserves_consumed (k : String)
    (l : List (String × String × String × Int)) :
    ∀ s : LocalStore, consumed s k → consumed (verifyRun s l) k := by
  induction l with
  | nil => intro s h; exact h
  | cons p rest ih =>
      intro s h
      obtain ⟨biz, phone, inputCode, now⟩ := p
      exact ih _ (verify_preserves_consumed s k biz phone inputCode now h)

/-- Verify on a consumed key returns verdict false, with either
ErrCodeVerifyTooManyTimes or ErrUnknownForCode, never true. -/
theorem verify_consumed_false (s : LocalStore) (biz phone inputCode : String)
    (now : Int) (h : consumed s (LocalCodeCache.key biz phone)) :
    (LocalCodeCache.Verify s biz phone inputCode now).ok = false ∧
    ((LocalCodeCache.Verify s biz phone inputCode now).err =
        some Err.verifyTooManyTimes ∨
     (LocalCodeCache.Verify s biz phone inputCode now).err =
        some Err.unknownForCode) := by
  simp only [LocalCodeCache.Verify]
  split
  next hg => exact ⟨rfl, Or.inr rfl⟩
  next e3 hg =>
    have hraw := cacheGet_eq_some hg
    have ht0 := h e3 hraw
    split
    next ht => exact ⟨rfl, Or.inl rfl⟩
    next ht => exact absurd ht0 ht

/-- C4: once a Verify call on a key has returned verdict true, every later
Verify on that key, after any further sequence of Verify calls and with
any input code, returns verdict false with either
ErrCodeVerifyTooManyTimes or ErrUnknownForCode, until a fresh Set; the
empty sequence gives the immediate-duplicate case. -/
theorem no_double_consumption (s : LocalStore) (biz phone c : String) (now : Int)
    (h : (LocalCodeCache.Verify s biz phone c now).ok = true)
    (l : List (String × String × String × Int)) (inputCode : String) (now2 : Int) :
    (LocalCodeCache.Verify
        (verifyRun (LocalCodeCache.Verify s biz phone c now).store l)
        biz phone inputCode now2).ok = false ∧
    ((LocalCodeCache.Verify
        (verifyRun (LocalCodeCache.Verify s biz phone c now).store l)
        biz phone inputCode now2).err = some Err.verifyTooManyTimes ∨
     (LocalCodeCache.Verify
        (verifyRun (LocalCodeCache.Verify s biz phone c now).store l)
        biz phone inputCode now2).err = some Err.unknownForCode) :=
  verify_consumed_false _ biz phone inputCode now2
    (verifyRun_preserves_consumed (LocalCodeCache.key biz phone) l _
      (verify_true_consumed s biz phone c now h))

/-- Witness for C4 at a concrete input: the correct code verifies once
with verdict true, and an immediate duplicate with the same correct code
after one intervening duplicate attempt returns verdict false. -/
theorem no_double_consumption_witness :
    (LocalCodeCache.Verify demoSetStore "login" "13800000000" "123456" 10).ok = true ∧
    ((LocalCodeCache.Verify
        (verifyRun (LocalCodeCache.Verify demoSetStore "login" "13800000000" "123456" 10).store
          [("login", "13800000000", "123456", 10)])
        "login" "13800000000" "123456" 10).ok = false ∧
     ((LocalCodeCache.Verify
        (verifyRun (LocalCodeCache.Verify demoSetStore "login" "13800000000" "123456" 10).store
          [("login", "13800000000", "123456", 10)])
        "login" "13800000000" "123456" 10).err = some Err.verifyTooManyTimes ∨
      (LocalCodeCache.Verify
        (verifyRun (LocalCodeCache.Verify demoSetStore "login" "13800000000" "123456" 10).store
          [("login", "13800000000", "123456", 10)])
        "login" "13800000000" "123456" 10).err = some Err.unknownForCode)) :=
  ⟨by decide,
   no_double_consumption demoSetStore "login" "13800000000" "123456" 10 (by decide)
     [("login", "13800000000", "123456", 10)] "123456" 10⟩

/-- The result of verifying the correct code at time 61, more than 60
seconds after the issuance at time 0. -/
def lateVerify : VerifyResult :=
  LocalCodeCache.Verify demoSetStore "login" "13800000000" "123456" 61

/-- A Set attempted at time 61, while the consumed sentinel record of
lateVerify is still stored (its residual window is 61 to 62). -/
def lateSet : SetResult :=
  LocalCodeCache.Set lateVerify.store "login" "13800000000" "654321" 61

/-- Counterexample for C9 as stated: after issuance at time 0 and a
successful Verify at time 61, the consumed sentinel record is still
stored and unexpired at time 61, yet a Set at time 61 succeeds instead
of returning ErrCodeSendTooMany, because 61 seconds have elapsed since
the issuance timestamp the cooldown check compares against. -/
theorem set_during_residual_can_succeed :
    lateVerify.ok = true ∧
    lateVerify.store demoKey = some ⟨⟨"123456", -1, 0⟩, 62⟩ ∧
    cacheGet lateVerify.store demoKey 61 = some ⟨⟨"123456", -1, 0⟩, 62⟩ ∧
    lateSet.err ≠ some Err.sendTooMany ∧
    lateSet.err = none ∧
    lateSet.store demoKey = some ⟨⟨"654321", 3, 61⟩, 361⟩ := by decide

/-- C9 as amended: during the residual window after a successful Verify,
while the consumed sentinel record is still stored and unexpired, a Set
for the same key returns ErrCodeSendTooMany without mutation whenever
less than 60 seconds have elapsed since the original issuance timestamp,
which the cooldown check compares without exempting consumed records. -/
theorem set_during_residual_cooldown (s : LocalStore) (biz phone c : String)
    (now : Int)
    (h : (LocalCodeCache.Verify s biz phone c now).ok = true)
    (c2 : String) (now2 : Int) (e2 : LocalEntry)
    (h2 : cacheGet (LocalCodeCache.Verify s biz phone c now).store
        (LocalCodeCache.key biz phone) now2 = some e2)
    (h60 : now2 - e2.value.createTime < 60) :
    LocalCodeCache.Set (LocalCodeCache.Verify s biz phone c now).store
        biz phone c2 now2 =
      ⟨some Err.sendTooMany, (LocalCodeCache.Verify s biz phone c now).store⟩ := by
  simp [LocalCodeCache.Set, h2, h60]

/-- Witness for the amended C9 at a concrete input: issuance at time 0,
successful Verify at time 10, and a Set at time 10, inside both the
residual window and the 60-second cooldown, is rejected without
mutation. -/
theorem set_during_residual_cooldown_witness :
    (LocalCodeCache.Verify demoSetStore "login" "13800000000" "123456" 10).ok = true ∧
    LocalCodeCache.Set
        (LocalCodeCache.Verify demoSetStore "login" "13800000000" "123456" 10).store
        "login" "13800000000" "654321" 10 =
      ⟨some Err.sendTooMany,
        (LocalCodeCache.Verify demoSetStore "login" "13800000000" "123456" 10).store⟩ :=
  ⟨by decide,
   set_during_residual_cooldown demoSetStore "login" "13800000000" "123456" 10
     (by decide) "654321" 10 ⟨⟨"123456", -1, 0⟩, 11⟩ (by decide) (by decide)⟩
